import Mathlib

/-!
Verification of `src/igp_scraper.py` (IGP-Scraping).

The Python module is shallowly embedded: JSON-like Python values become the
inductive `PyVal`, Python dicts become association lists in insertion order,
exceptions become `Except PyErr`, and the two effectful dependencies
(`requests.get` and the DynamoDB table) become explicit oracle functions and
an explicit table state threaded through the handler.  `uuid.uuid4()` is
modelled by a stream of identifier strings supplied by the environment.
-/

set_option autoImplicit false

namespace IGP

/-- A Python/JSON value as it occurs in this program: `None`, booleans,
integers, strings, lists and string-keyed dicts (kept in insertion order,
as Python dicts are). -/
inductive PyVal where
  | none
  | bool (b : Bool)
  | int (n : Int)
  | str (s : String)
  | list (xs : List PyVal)
  | dict (xs : List (String × PyVal))
  deriving Inhabited

mutual

/-- Structural equality on `PyVal` (Python `==` restricted to the JSON-like
fragment this program manipulates). -/
def pyBeq : PyVal → PyVal → Bool
  | .none, .none => true
  | .bool a, .bool b => a == b
  | .int a, .int b => a == b
  | .str a, .str b => a == b
  | .list xs, .list ys => pyBeqL xs ys
  | .dict xs, .dict ys => pyBeqD xs ys
  | _, _ => false

/-- Elementwise equality on lists of `PyVal`. -/
def pyBeqL : List PyVal → List PyVal → Bool
  | [], [] => true
  | x :: xs, y :: ys => pyBeq x y && pyBeqL xs ys
  | _, _ => false

/-- Entrywise equality on dicts. -/
def pyBeqD : List (String × PyVal) → List (String × PyVal) → Bool
  | [], [] => true
  | (k, v) :: xs, (l, w) :: ys => k == l && pyBeq v w && pyBeqD xs ys
  | _, _ => false

end

mutual

theorem pyBeq_iff : ∀ a b : PyVal, pyBeq a b = true ↔ a = b
  | .none, .none => by simp [pyBeq]
  | .none, .bool _ => by simp [pyBeq]
  | .none, .int _ => by simp [pyBeq]
  | .none, .str _ => by simp [pyBeq]
  | .none, .list _ => by simp [pyBeq]
  | .none, .dict _ => by simp [pyBeq]
  | .bool _, .none => by simp [pyBeq]
  | .bool _, .bool _ => by simp [pyBeq]
  | .bool _, .int _ => by simp [pyBeq]
  | .bool _, .str _ => by simp [pyBeq]
  | .bool _, .list _ => by simp [pyBeq]
  | .bool _, .dict _ => by simp [pyBeq]
  | .int _, .none => by simp [pyBeq]
  | .int _, .bool _ => by simp [pyBeq]
  | .int _, .int _ => by simp [pyBeq]
  | .int _, .str _ => by simp [pyBeq]
  | .int _, .list _ => by simp [pyBeq]
  | .int _, .dict _ => by simp [pyBeq]
  | .str _, .none => by simp [pyBeq]
  | .str _, .bool _ => by simp [pyBeq]
  | .str _, .int _ => by simp [pyBeq]
  | .str _, .str _ => by simp [pyBeq]
  | .str _, .list _ => by simp [pyBeq]
  | .str _, .dict _ => by simp [pyBeq]
  | .list _, .none => by simp [pyBeq]
  | .list _, .bool _ => by simp [pyBeq]
  | .list _, .int _ => by simp [pyBeq]
  | .list _, .str _ => by simp [pyBeq]
  | .list xs, .list ys => by simp [pyBeq, pyBeqL_iff xs ys]
  | .list _, .dict _ => by simp [pyBeq]
  | .dict _, .none => by simp [pyBeq]
  | .dict _, .bool _ => by simp [pyBeq]
  | .dict _, .int _ => by simp [pyBeq]
  | .dict _, .str _ => by simp [pyBeq]
  | .dict _, .list _ => by simp [pyBeq]
  | .dict xs, .dict ys => by simp [pyBeq, pyBeqD_iff xs ys]

theorem pyBeqL_iff : ∀ xs ys : List PyVal, pyBeqL xs ys = true ↔ xs = ys
  | [], [] => by simp [pyBeqL]
  | [], _ :: _ => by simp [pyBeqL]
  | _ :: _, [] => by simp [pyBeqL]
  | x :: xs, y :: ys => by
      simp [pyBeqL, pyBeq_iff x y, pyBeqL_iff xs ys]

theorem pyBeqD_iff : ∀ xs ys : List (String × PyVal), pyBeqD xs ys = true ↔ xs = ys
  | [], [] => by simp [pyBeqD]
  | [], _ :: _ => by simp [pyBeqD]
  | _ :: _, [] => by simp [pyBeqD]
  | (k, v) :: xs, (l, w) :: ys => by
      simp [pyBeqD, pyBeq_iff v w, pyBeqD_iff xs ys, and_assoc]

end

instance : DecidableEq PyVal := fun a b => decidable_of_iff _ (pyBeq_iff a b)

/-- A raised Python exception, reduced to its string description
(`str(e)` is all `lambda_handler` ever uses of an exception). -/
structure PyErr where
  msg : String
  deriving DecidableEq, Repr

/-- Python truthiness (`bool(x)`): `None`, `False`, `0`, `""` and empty
containers are falsy, everything else is truthy. -/
def truthy : PyVal → Bool
  | .none => false
  | .bool b => b
  | .int n => n != 0
  | .str s => s != ""
  | .list xs => !xs.isEmpty
  | .dict xs => !xs.isEmpty

/-- Python `a or b`: returns `a` when `a` is truthy, else `b`. -/
def pyOr (a b : PyVal) : PyVal :=
  if truthy a then a else b

/-- Dict lookup, first binding wins (Python dicts have unique keys, so for
well-formed dicts this is exact). -/
def dget (xs : List (String × PyVal)) (k : String) : Option PyVal :=
  (xs.find? (fun p => p.1 == k)).map (fun p => p.2)

/-- Python `d.get(k, default)`. -/
def dgetD (xs : List (String × PyVal)) (k : String) (d : PyVal) : PyVal :=
  (dget xs k).getD d

/-- Python `k in d`. -/
def hasKey (xs : List (String × PyVal)) (k : String) : Bool :=
  (dget xs k).isSome

/-- The single-quote character, used by Python `repr` for strings. -/
def squote : Char := Char.ofNat 39

/-- Escaping of one character inside Python `repr` of a string (the common
cases; exotic control characters are left as-is, which no claim depends on). -/
def pyReprEscapeChar (c : Char) : String :=
  if c = '\\' then "\\\\"
  else if c = squote then String.mk ['\\', squote]
  else if c = '\n' then "\\n"
  else if c = '\r' then "\\r"
  else if c = '\t' then "\\t"
  else String.singleton c

/-- Python `repr` of a string: single-quoted with escapes. -/
def pyReprStr (s : String) : String :=
  String.singleton squote ++ String.join (s.data.map pyReprEscapeChar) ++ String.singleton squote

mutual

/-- Python `repr(v)` for the JSON-like fragment: `None`/`True`/`False`,
decimal integers, single-quoted strings, `[...]` lists and `\x7b...\x7d`
dicts with `, ` and `: ` separators (insertion order, as CPython prints). -/
def pyRepr : PyVal → String
  | .none => "None"
  | .bool b => if b then "True" else "False"
  | .int n => toString n
  | .str s => pyReprStr s
  | .list xs => "[" ++ String.intercalate ", " (pyReprL xs) ++ "]"
  | .dict xs => "\x7b" ++ String.intercalate ", " (pyReprD xs) ++ "\x7d"

/-- `repr` of each element of a list. -/
def pyReprL : List PyVal → List String
  | [] => []
  | x :: xs => pyRepr x :: pyReprL xs

/-- `repr` of each `key: value` entry of a dict. -/
def pyReprD : List (String × PyVal) → List String
  | [] => []
  | (k, v) :: xs => (pyReprStr k ++ ": " ++ pyRepr v) :: pyReprD xs

end

/-- Python `str(v)`: the string itself for strings, `repr` otherwise
(which coincides with `str` on `None`, booleans, integers, lists, dicts). -/
def pyStr : PyVal → String
  | .str s => s
  | v => pyRepr v

/-- One hexadecimal digit. -/
def hexDigit (n : Nat) : Char :=
  if n < 10 then Char.ofNat (48 + n) else Char.ofNat (87 + n)

/-- Escaping of one character by `json.dumps` with `ensure_ascii=False`:
quote, backslash and control characters are escaped, everything else
(ASCII or not) passes through. -/
def jsonEscapeChar (c : Char) : String :=
  if c = '"' then "\\\""
  else if c = '\\' then "\\\\"
  else if c = '\n' then "\\n"
  else if c = '\r' then "\\r"
  else if c = '\t' then "\\t"
  else if c = Char.ofNat 8 then "\\b"
  else if c = Char.ofNat 12 then "\\f"
  else if c.toNat < 32 then
    "\\u00" ++ String.singleton (hexDigit (c.toNat / 16)) ++ String.singleton (hexDigit (c.toNat % 16))
  else String.singleton c

/-- Serialization of a string: double-quoted with escapes. -/
def jsonStr (s : String) : String :=
  "\"" ++ String.join (s.data.map jsonEscapeChar) ++ "\""

mutual

/-- Python `json.dumps(v, ensure_ascii=False)` with the default separators
`", "` and `": "`; dict entries are emitted in insertion order. -/
def jsonDumps : PyVal → String
  | .none => "null"
  | .bool b => if b then "true" else "false"
  | .int n => toString n
  | .str s => jsonStr s
  | .list xs => "[" ++ String.intercalate ", " (jsonDumpsL xs) ++ "]"
  | .dict xs => "\x7b" ++ String.intercalate ", " (jsonDumpsD xs) ++ "\x7d"

/-- Serialization of each element of a list. -/
def jsonDumpsL : List PyVal → List String
  | [] => []
  | x :: xs => jsonDumps x :: jsonDumpsL xs

/-- Serialization of each `"key": value` entry of a dict. -/
def jsonDumpsD : List (String × PyVal) → List String
  | [] => []
  | (k, v) :: xs => (jsonStr k ++ ": " ++ jsonDumps v) :: jsonDumpsD xs

end

/-- Left-pad the decimal form of a nonnegative integer with zeros to
width `w`. -/
def pad (w : Nat) (n : Int) : String :=
  let s := toString n.toNat
  String.mk (List.replicate (w - s.length) '0') ++ s

/-- Proleptic-Gregorian date (year, month, day) of a day count relative to
1970-01-01 (Howard Hinnant's `civil_from_days`, the standard exact algorithm
for what `datetime.utcfromtimestamp` computes). -/
def civilFromDays (z : Int) : Int × Int × Int :=
  let zd := z + 719468
  let era := zd.fdiv 146097
  let doe := zd - era * 146097
  let yoe := (doe - doe.fdiv 1460 + doe.fdiv 36524 - doe.fdiv 146096).fdiv 365
  let y := yoe + era * 400
  let doy := doe - (365 * yoe + yoe.fdiv 4 - yoe.fdiv 100)
  let mp := (5 * doy + 2).fdiv 153
  let d := doy - (153 * mp + 2).fdiv 5 + 1
  let m := mp + (if mp < 10 then 3 else -9)
  (y + (if m ≤ 2 then 1 else 0), m, d)

/-- `datetime.utcfromtimestamp(ms / 1000.0).isoformat()` for an integer
number of milliseconds, modelling the float division exactly: `ms` ms are
`ms * 1000` µs.  Returns `none` when the instant falls outside `datetime`'s
year range 1..9999, where the Python call raises (the caller then falls
back to `str(ms)`).  `isoformat()` appends the `.ffffff` microsecond part
only when it is nonzero. -/
def msToIso (ms : Int) : Option String :=
  let totalUs := ms * 1000
  let s := totalUs.fdiv 1000000
  let us := totalUs.fmod 1000000
  let days := s.fdiv 86400
  let secOfDay := s.fmod 86400
  let ymd := civilFromDays days
  if ymd.1 < 1 ∨ 9999 < ymd.1 then Option.none
  else
    let hh := secOfDay.fdiv 3600
    let mi := (secOfDay.fmod 3600).fdiv 60
    let ss := secOfDay.fmod 60
    let base := pad 4 ymd.1 ++ "-" ++ pad 2 ymd.2.1 ++ "-" ++ pad 2 ymd.2.2 ++
      "T" ++ pad 2 hh ++ ":" ++ pad 2 mi ++ ":" ++ pad 2 ss
    some (if us = 0 then base else base ++ "." ++ pad 6 us)

/-- `_ms_to_iso` (src/igp_scraper.py:43-54): `None` maps to `""`; a number
is converted via `datetime.utcfromtimestamp(ms / 1000.0).isoformat()`
(booleans are numbers in Python, `True == 1`); if the conversion raises
(out of `datetime` range) or the value does not support division by a float
(strings, lists, dicts raise `TypeError`), the raw value's `str` form is
returned. -/
def ms_to_iso : PyVal → String
  | .none => ""
  | .int n => (msToIso n).getD (toString n)
  | .bool b => (msToIso (if b then 1 else 0)).getD (if b then "True" else "False")
  | .str s => s
  | .list xs => pyRepr (.list xs)
  | .dict xs => pyRepr (.dict xs)

/-- One flat DynamoDB item: a dict in insertion order. -/
abbrev Item := List (String × PyVal)

/-- `feature.get("attributes", \x7b\x7d) or \x7b\x7d` (src/igp_scraper.py:62):
the attribute mapping of a feature dict, with a missing, null or otherwise
falsy value replaced by the empty dict. -/
def attrsOf (fd : List (String × PyVal)) : PyVal :=
  pyOr (dgetD fd "attributes" (.dict [])) (.dict [])

/-- `_normalize_feature` (src/igp_scraper.py:57-84), with the freshly drawn
`str(uuid.uuid4())` passed in as `u`.  `feature.get` and `attrs.get` require
dicts: a non-dict feature, or a truthy non-dict `attributes` value, raises
`AttributeError` (a falsy one is replaced by `\x7b\x7d` by the `or`). -/
def normalize_feature (u : String) (feature : PyVal) : Except PyErr Item :=
  match feature with
  | .dict fd =>
    match attrsOf fd with
    | .dict attrs =>
      .ok [
        ("id", .str u),
        ("codigo", .str (pyStr (dgetD attrs "code" (.str "")))),
        ("fechaEvento", .str (ms_to_iso (pyOr (dgetD attrs "fechaevento" .none) (dgetD attrs "fecha" .none)))),
        ("horaLocal", pyOr (dgetD attrs "hora" (.str "")) (.str "")),
        ("referencia", pyOr (dgetD attrs "ref" (.str "")) (.str "")),
        ("magnitud", .str (pyStr (dgetD attrs "magnitud" (.str "")))),
        ("intensidad", pyOr (dgetD attrs "int_" (.str "")) (.str "")),
        ("profundidadKm", .str (pyStr (dgetD attrs "prof" (.str "")))),
        ("profundidadCategoria", pyOr (dgetD attrs "profundidad" (.str "")) (.str "")),
        ("departamento", pyOr (dgetD attrs "departamento" (.str "")) (.str "")),
        ("sentido", pyOr (dgetD attrs "sentido" (.str "")) (.str "")),
        ("ultimoFlag", pyOr (dgetD attrs "ultimo" (.str "")) (.str ""))
      ]
    | _ => .error ⟨"AttributeError: attributes value has no attribute get"⟩
  | _ => .error ⟨"AttributeError: feature has no attribute get"⟩

/-- The DynamoDB table state: its rows, in scan order. -/
abbrev Table := List Item

/-- The delete half of `_save_to_dynamo` (src/igp_scraper.py:95-99): for each
row of the scan that has an `id` key, `batch.delete_item(Key=\x7b"id": old["id"]\x7d)`
removes every row whose `id` equals that value; rows without an `id` key are
skipped.  First argument: the scan snapshot being iterated; second: the
current table. -/
def delete_phase : List Item → Table → Table
  | [], cur => cur
  | old :: rest, cur =>
    match dget old "id" with
    | some k => delete_phase rest (cur.filter (fun r => decide (dget r "id" ≠ some k)))
    | Option.none => delete_phase rest cur

/-- The insert half of `_save_to_dynamo` (src/igp_scraper.py:101-103):
`batch.put_item(Item=item)` overwrites any row with the same `id` and
appends the item; an item without the table's `id` key makes the batch
write fail (`ValidationException`), modelled as `none`. -/
def put_phase : List Item → Table → Option Table
  | [], cur => some cur
  | it :: rest, cur =>
    match dget it "id" with
    | some k => put_phase rest (cur.filter (fun r => decide (dget r "id" ≠ some k)) ++ [it])
    | Option.none => Option.none

/-- `_save_to_dynamo` (src/igp_scraper.py:87-103): scan the table, delete
every scanned row by its `id`, then put every new item.  `none` is the
`StoreError` outcome of an invalid put. -/
def save_to_dynamo (items : List Item) (t : Table) : Option Table :=
  put_phase items (delete_phase t t)

/-- The ArcGIS query endpoint (src/igp_scraper.py:11-14). -/
def ARCGIS_URL : String :=
  "https://ide.igp.gob.pe/arcgis/rest/services/monitoreocensis/SismosReportados/MapServer/0/query"

/-- The destination table name (src/igp_scraper.py:17): the environment
variable is modelled as unset, so the hardcoded default applies. -/
def DYNAMO_TABLE_NAME : String := "IGP_Sismos"

/-- One outbound GET request as `requests.get(url, params=..., timeout=...)`
receives it. -/
structure Request where
  url : String
  params : List (String × PyVal)
  timeoutSecs : Nat
  deriving DecidableEq

instance {ε α : Type} [DecidableEq ε] [DecidableEq α] : DecidableEq (Except ε α) := fun x y =>
  match x, y with
  | .ok a, .ok b =>
    if h : a = b then .isTrue (h ▸ rfl) else .isFalse (fun hh => h (Except.ok.inj hh))
  | .error a, .error b =>
    if h : a = b then .isTrue (h ▸ rfl) else .isFalse (fun hh => h (Except.error.inj hh))
  | .ok _, .error _ => .isFalse (fun hh => Except.noConfusion hh)
  | .error _, .ok _ => .isFalse (fun hh => Except.noConfusion hh)

/-- The upstream HTTP response: its status code and the outcome of
`resp.json()` (a parse error or the parsed value). -/
structure HttpResp where
  status : Nat
  body : Except String PyVal
  deriving DecidableEq

/-- What the network does with one request: raise inside `requests.get`
(timeout, connection failure), or deliver a response. -/
inductive HttpOutcome where
  | fail (msg : String)
  | resp (r : HttpResp)
  deriving DecidableEq

/-- The single request `_fetch_last_sismos` builds (src/igp_scraper.py:25-35):
the fixed query parameters, with `resultRecordCount` set to `limit`, and a
timeout of 10 seconds. -/
def fetch_request (limit : Int) : Request :=
  { url := ARCGIS_URL
    params := [("f", .str "json"), ("where", .str "1=1"), ("outFields", .str "*"),
               ("orderByFields", .str "fechaevento DESC"), ("resultRecordCount", .int limit),
               ("returnGeometry", .str "false")]
    timeoutSecs := 10 }

/-- `_fetch_last_sismos` (src/igp_scraper.py:20-40), over an oracle `http`
for the network.  By construction it issues exactly one GET request, namely
`fetch_request limit`.  `resp.raise_for_status()` raises exactly for status
codes in [400, 600); `data.get("features", [])` requires the parsed body to
be a dict and defaults to the empty list when the key is absent. -/
def fetch_last_sismos (limit : Int) (http : Request → HttpOutcome) : Except PyErr PyVal :=
  match http (fetch_request limit) with
  | .fail m => .error ⟨m⟩
  | .resp r =>
    if 400 ≤ r.status ∧ r.status < 600 then
      .error ⟨"HTTPError: status " ++ toString r.status⟩
    else
      match r.body with
      | .error m => .error ⟨m⟩
      | .ok data =>
        match data with
        | .dict d => .ok (dgetD d "features" (.list []))
        | _ => .error ⟨"AttributeError: response json has no attribute get"⟩

/-- Python iteration `for f in features` as used by the list comprehension
in `lambda_handler`: lists yield their elements, strings their characters,
dicts their keys; everything else raises `TypeError`. -/
def pyIterate : PyVal → Except PyErr (List PyVal)
  | .list xs => .ok xs
  | .str s => .ok (s.data.map (fun c => .str (String.singleton c)))
  | .dict xs => .ok (xs.map (fun kv => .str kv.1))
  | _ => .error ⟨"TypeError: object is not iterable"⟩

/-- The comprehension `[_normalize_feature(f) for f in features]`
(src/igp_scraper.py:109), drawing the `i`-th fresh uuid for the `i`-th
feature; the first exception aborts the comprehension. -/
def normalize_all (uuids : Nat → String) : Nat → List PyVal → Except PyErr (List Item)
  | _, [] => .ok []
  | i, f :: fs => do
    let it ← normalize_feature (uuids i) f
    let rest ← normalize_all uuids (i + 1) fs
    .ok (it :: rest)

/-- The handler's HTTP-style response value. -/
structure Response where
  statusCode : Nat
  body : String
  headers : List (String × String)
  deriving DecidableEq

/-- The headers attached to both the 200 and the 500 response
(src/igp_scraper.py:116-119 and 129-132). -/
def respHeaders : List (String × String) :=
  [("Content-Type", "application/json; charset=utf-8"),
   ("Access-Control-Allow-Origin", "*")]

/-- The environment of one invocation: the network oracle, the uuid stream,
the prior table state, and an optional store fault (an exception a batch
operation raises, together with the partially mutated table it leaves
behind — the replacement is not transactional). -/
structure Env where
  http : Request → HttpOutcome
  uuids : Nat → String
  table : Table
  storeFault : Option (PyErr × Table)

/-- The `try` block of `lambda_handler` (src/igp_scraper.py:107-111): fetch,
normalize each feature, save; the result is either the normalized items or
the first exception raised, together with the table state afterwards.  The
fetch and normalize stages do not touch the table.  The final `none` branch
(a normalized item without `id`) is unreachable for normalizer output,
which always begins with the `id` field. -/
def run_pipeline (env : Env) : Except PyErr (List Item) × Table :=
  match fetch_last_sismos 10 env.http with
  | .error e => (.error e, env.table)
  | .ok features =>
    match pyIterate features with
    | .error e => (.error e, env.table)
    | .ok fs =>
      match normalize_all env.uuids 0 fs with
      | .error e => (.error e, env.table)
      | .ok items =>
        match env.storeFault with
        | some ft => (.error ft.1, ft.2)
        | Option.none =>
          match save_to_dynamo items env.table with
          | some t2 => (.ok items, t2)
          | Option.none => (.error ⟨"ValidationException: missing key id"⟩, env.table)

/-- `lambda_handler` (src/igp_scraper.py:106-133): on a normal run, status
200 with the items serialized by `json.dumps(items, ensure_ascii=False)`;
on any exception, status 500 with `json.dumps(\x7b"error": str(e)\x7d)`;
the same two headers in both cases. -/
def lambda_handler (env : Env) : Response × Table :=
  match run_pipeline env with
  | (.ok items, t2) =>
    ({ statusCode := 200
       body := jsonDumps (.list (items.map PyVal.dict))
       headers := respHeaders }, t2)
  | (.error e, t2) =>
    ({ statusCode := 500
       body := jsonDumps (.dict [("error", .str e.msg)])
       headers := respHeaders }, t2)

/-! ### Observation helpers -/

/-- Whether a value is a Python string. -/
def isStr : PyVal → Bool
  | .str _ => true
  | _ => false

/-- Whether a present dict entry is a string. -/
def isStrO : Option PyVal → Bool
  | some (.str _) => true
  | _ => false

/-- The field names of a normalization result, `none` when it raised. -/
def resultKeys : Except PyErr Item → Option (List String)
  | .ok it => some (it.map Prod.fst)
  | .error _ => Option.none

/-- Drop the generated `id` field of an item. -/
def dropId (it : Item) : Item :=
  it.filter (fun p => decide (p.1 ≠ "id"))

/-- The `id` column of a table: the `id` values of the rows that have one. -/
def idVals (t : Table) : List PyVal :=
  t.filterMap (fun r => dget r "id")

/-! ### Store lemmas -/

theorem mem_delete_phase {scan : List Item} {cur : Table} {r : Item}
    (hr : r ∈ delete_phase scan cur) :
    r ∈ cur ∧ ∀ o ∈ scan, ∀ k, dget o "id" = some k → dget r "id" ≠ some k := by
  induction scan generalizing cur with
  | nil =>
    simpa [delete_phase] using hr
  | cons o rest ih =>
    rw [delete_phase] at hr
    rcases ho : dget o "id" with _ | k
    · rw [ho] at hr
      rcases ih hr with ⟨hrcur, hrest⟩
      refine ⟨hrcur, ?_⟩
      intro o2 ho2 k2 hk2
      rcases List.mem_cons.mp ho2 with rfl | ho2
      · rw [ho] at hk2; exact absurd hk2 (by simp)
      · exact hrest o2 ho2 k2 hk2
    · rw [ho] at hr
      rcases ih hr with ⟨hrcur, hrest⟩
      rcases List.mem_filter.mp hrcur with ⟨hrcur2, hpred⟩
      refine ⟨hrcur2, ?_⟩
      intro o2 ho2 k2 hk2
      rcases List.mem_cons.mp ho2 with rfl | ho2
      · rw [ho] at hk2
        cases hk2
        simpa using hpred
      · exact hrest o2 ho2 k2 hk2

theorem delete_phase_eq_nil {t : Table}
    (hall : ∀ r ∈ t, (dget r "id").isSome) :
    delete_phase t t = [] := by
  rw [List.eq_nil_iff_forall_not_mem]
  intro r hr
  rcases mem_delete_phase hr with ⟨hrt, hscan⟩
  rcases Option.isSome_iff_exists.mp (hall r hrt) with ⟨k, hk⟩
  exact hscan r hrt k hk hk

theorem mem_delete_phase_of_no_id {r : Item} (hid : dget r "id" = Option.none) :
    ∀ (scan : List Item) (cur : Table), r ∈ cur → r ∈ delete_phase scan cur := by
  intro scan
  induction scan with
  | nil =>
    intro cur hr
    simpa [delete_phase] using hr
  | cons o rest ih =>
    intro cur hr
    rw [delete_phase]
    rcases ho : dget o "id" with _ | k
    · exact ih cur hr
    · refine ih _ (List.mem_filter.mpr ⟨hr, ?_⟩)
      simp [hid]

theorem put_phase_subset {items : List Item} {cur t2 : Table}
    (h : put_phase items cur = some t2) :
    ∀ r ∈ t2, r ∈ cur ∨ r ∈ items := by
  induction items generalizing cur with
  | nil =>
    intro r hr
    rw [put_phase] at h
    cases h
    exact Or.inl hr
  | cons it rest ih =>
    intro r hr
    rw [put_phase] at h
    rcases hit : dget it "id" with _ | k
    · rw [hit] at h; cases h
    · rw [hit] at h
      rcases ih h r hr with hcur | hrest
      · rcases List.mem_append.mp hcur with hfil | hsing
        · exact Or.inl (List.mem_filter.mp hfil).1
        · rcases List.mem_singleton.mp hsing with rfl
          exact Or.inr (List.mem_cons_self _ _)
      · exact Or.inr (List.mem_cons_of_mem _ hrest)

theorem idVals_filter_ne {cur : Table} {k v : PyVal} :
    v ∈ idVals (cur.filter (fun r => decide (dget r "id" ≠ some k))) ↔
      v ∈ idVals cur ∧ v ≠ k := by
  constructor
  · intro hv
    rcases List.mem_filterMap.mp hv with ⟨r, hr, hrid⟩
    rcases List.mem_filter.mp hr with ⟨hrcur, hpred⟩
    refine ⟨List.mem_filterMap.mpr ⟨r, hrcur, hrid⟩, ?_⟩
    rintro rfl
    rw [hrid] at hpred
    simp at hpred
  · rintro ⟨hv, hne⟩
    rcases List.mem_filterMap.mp hv with ⟨r, hr, hrid⟩
    refine List.mem_filterMap.mpr ⟨r, List.mem_filter.mpr ⟨hr, ?_⟩, hrid⟩
    rw [hrid]
    simpa using hne

theorem put_phase_idVals {items : List Item} {cur t2 : Table}
    (h : put_phase items cur = some t2) :
    ∀ v, v ∈ idVals t2 ↔ v ∈ idVals cur ∨ v ∈ idVals items := by
  induction items generalizing cur with
  | nil =>
    intro v
    rw [put_phase] at h
    cases h
    simp [idVals]
  | cons it rest ih =>
    intro v
    rw [put_phase] at h
    rcases hit : dget it "id" with _ | k
    · rw [hit] at h; cases h
    · rw [hit] at h
      have hcur : v ∈ idVals (cur.filter (fun r => decide (dget r "id" ≠ some k)) ++ [it]) ↔
          (v ∈ idVals cur ∧ v ≠ k) ∨ v = k := by
        rw [idVals, List.filterMap_append]
        constructor
        · intro hv
          rcases List.mem_append.mp hv with hv | hv
          · exact Or.inl (idVals_filter_ne.mp hv)
          · simp only [List.filterMap_cons, hit, List.filterMap_nil] at hv
            rcases List.mem_singleton.mp hv with rfl
            exact Or.inr rfl
        · rintro (⟨hv, hne⟩ | rfl)
          · exact List.mem_append.mpr (Or.inl (idVals_filter_ne.mpr ⟨hv, hne⟩))
          · refine List.mem_append.mpr (Or.inr ?_)
            simp [hit]
      rw [ih h v, hcur]
      have hks : idVals (it :: rest) = k :: idVals rest := by
        simp [idVals, List.filterMap_cons, hit]
      rw [hks]
      by_cases hvk : v = k
      · subst hvk; simp
      · simp [hvk]

/-! ### Normalizer lemmas -/

theorem isStrO_some (v : PyVal) : isStrO (some v) = isStr v := by
  cases v <;> rfl

theorem isStrO_pyOr_empty (v : PyVal) :
    isStrO (some (pyOr v (.str ""))) = (!truthy v || isStr v) := by
  rw [pyOr]
  cases htv : truthy v
  · simp [isStrO]
  · simp [isStrO_some]

/-! ### Claims -/

/-- C5: `_ms_to_iso` maps the millisecond epoch value `0` to
`"1970-01-01T00:00:00"`, `None` to `""`, and the non-numeric, non-null
value `"abc"` to the string `"abc"` itself. -/
theorem C5_ms_to_iso_concrete :
    ms_to_iso (.int 0) = "1970-01-01T00:00:00" ∧
      ms_to_iso PyVal.none = "" ∧
      ms_to_iso (.str "abc") = "abc" := by
  refine ⟨by decide, rfl, rfl⟩

/-- C8: normalizing the same feature with two different generated
identifiers yields records that agree on every field except `id` (the
normalizer is deterministic in all content fields), and on a raising input
both runs raise the same exception. -/
theorem C8_normalize_deterministic_except_id (f : PyVal) (u1 u2 : String) :
    (normalize_feature u1 f).map dropId = (normalize_feature u2 f).map dropId := by
  cases f <;> try rfl
  case dict fd =>
    simp only [normalize_feature]
    cases h : attrsOf fd <;> rfl

/-- C3 counterexample: the normalizer is not total on arbitrary feature
mappings: a feature whose `attributes` value is a truthy non-mapping (here
the string `"x"`) makes `attrs.get` raise `AttributeError`. -/
theorem C3_counterexample :
    normalize_feature "u0" (.dict [("attributes", .str "x")]) =
      .error ⟨"AttributeError: attributes value has no attribute get"⟩ := rfl

/-- C3 (amended): for every feature mapping whose `attributes` value is a
mapping, absent, null, or otherwise falsy (so that `attrs.get` is applied
to a dict), the normalizer returns, without raising, a record with exactly
the twelve destination fields in order, substituting defaults for missing
or null attributes. -/
theorem C3_normalize_total_on_mappings (u : String) (fd attrs : List (String × PyVal))
    (h : attrsOf fd = .dict attrs) :
    resultKeys (normalize_feature u (.dict fd)) =
      some ["id", "codigo", "fechaEvento", "horaLocal", "referencia", "magnitud",
            "intensidad", "profundidadKm", "profundidadCategoria", "departamento",
            "sentido", "ultimoFlag"] := by
  simp only [normalize_feature, h, resultKeys]
  rfl

/-- C3 witness: a feature with a null `attributes` mapping normalizes
without raising to a record with the twelve fields. -/
theorem C3_witness :
    resultKeys (normalize_feature "u0" (.dict [("attributes", PyVal.none)])) =
      some ["id", "codigo", "fechaEvento", "horaLocal", "referencia", "magnitud",
            "intensidad", "profundidadKm", "profundidadCategoria", "departamento",
            "sentido", "ultimoFlag"] :=
  C3_normalize_total_on_mappings "u0" [("attributes", PyVal.none)] [] rfl

/-- C2 counterexample: with the attribute value `hora = 1` (a number), the
normalized record's `horaLocal` field is the integer `1`, not a string: the
pass-through fields are not coerced with `str`. -/
theorem C2_counterexample :
    (normalize_feature "u0" (.dict [("attributes", .dict [("hora", .int 1)])])).map
        (fun it => dget it "horaLocal") = .ok (some (.int 1)) ∧
      isStr (.int 1) = false :=
  ⟨rfl, rfl⟩

/-- C2 (amended): in every normalized record the `id`, `codigo`,
`fechaEvento`, `magnitud` and `profundidadKm` fields are always strings
(built by `str(...)` or `_ms_to_iso`); each of the seven pass-through
fields (`horaLocal`, `referencia`, `intensidad`, `profundidadCategoria`,
`departamento`, `sentido`, `ultimoFlag`) is a string iff its source
attribute value is a string or falsy (falsy values of any type become
`""`; truthy non-string values pass through unchanged). -/
theorem C2_field_string_invariant (u : String) (fd attrs : List (String × PyVal)) (it : Item)
    (h : attrsOf fd = .dict attrs)
    (hit : normalize_feature u (.dict fd) = .ok it) :
    isStrO (dget it "id") = true ∧
    isStrO (dget it "codigo") = true ∧
    isStrO (dget it "fechaEvento") = true ∧
    isStrO (dget it "magnitud") = true ∧
    isStrO (dget it "profundidadKm") = true ∧
    isStrO (dget it "horaLocal")
      = (!truthy (dgetD attrs "hora" (.str "")) || isStr (dgetD attrs "hora" (.str ""))) ∧
    isStrO (dget it "referencia")
      = (!truthy (dgetD attrs "ref" (.str "")) || isStr (dgetD attrs "ref" (.str ""))) ∧
    isStrO (dget it "intensidad")
      = (!truthy (dgetD attrs "int_" (.str "")) || isStr (dgetD attrs "int_" (.str ""))) ∧
    isStrO (dget it "profundidadCategoria")
      = (!truthy (dgetD attrs "profundidad" (.str "")) || isStr (dgetD attrs "profundidad" (.str ""))) ∧
    isStrO (dget it "departamento")
      = (!truthy (dgetD attrs "departamento" (.str "")) || isStr (dgetD attrs "departamento" (.str ""))) ∧
    isStrO (dget it "sentido")
      = (!truthy (dgetD attrs "sentido" (.str "")) || isStr (dgetD attrs "sentido" (.str ""))) ∧
    isStrO (dget it "ultimoFlag")
      = (!truthy (dgetD attrs "ultimo" (.str "")) || isStr (dgetD attrs "ultimo" (.str ""))) := by
  simp only [normalize_feature, h, Except.ok.injEq] at hit
  subst hit
  refine ⟨rfl, rfl, rfl, rfl, rfl, ?_, ?_, ?_, ?_, ?_, ?_, ?_⟩ <;>
    exact isStrO_pyOr_empty _

/-- C2 witness: with `hora = 0` (falsy number) and `ref = "R"` (string),
all the invariant equations of the amended claim hold at a concrete
feature. -/
theorem C2_witness :
    isStrO (dget [("id", PyVal.str "u0"), ("codigo", PyVal.str ""), ("fechaEvento", PyVal.str ""),
        ("horaLocal", PyVal.str ""), ("referencia", PyVal.str "R"), ("magnitud", PyVal.str ""),
        ("intensidad", PyVal.str ""), ("profundidadKm", PyVal.str ""),
        ("profundidadCategoria", PyVal.str ""), ("departamento", PyVal.str ""),
        ("sentido", PyVal.str ""), ("ultimoFlag", PyVal.str "")] "horaLocal") = true := by
  have H := C2_field_string_invariant "u0"
    [("attributes", PyVal.dict [("hora", PyVal.int 0), ("ref", PyVal.str "R")])]
    [("hora", PyVal.int 0), ("ref", PyVal.str "R")]
    [("id", PyVal.str "u0"), ("codigo", PyVal.str ""), ("fechaEvento", PyVal.str ""),
     ("horaLocal", PyVal.str ""), ("referencia", PyVal.str "R"), ("magnitud", PyVal.str ""),
     ("intensidad", PyVal.str ""), ("profundidadKm", PyVal.str ""),
     ("profundidadCategoria", PyVal.str ""), ("departamento", PyVal.str ""),
     ("sentido", PyVal.str ""), ("ultimoFlag", PyVal.str "")] rfl rfl
  exact H.2.2.2.2.2.1.trans (by decide)

/-- C6 counterexample: with `fechaevento = 0` (falsy but non-null) and
`fecha = 60000`, the resolved timestamp comes from `fecha`
(`"1970-01-01T00:01:00"`), not from `fechaevento` (which would give
`"1970-01-01T00:00:00"`): Python `or` picks the first truthy value, not
the first non-null one. -/
theorem C6_counterexample :
    (normalize_feature "u0"
        (.dict [("attributes", .dict [("fechaevento", .int 0), ("fecha", .int 60000)])])).map
        (fun it => dget it "fechaEvento") = .ok (some (.str "1970-01-01T00:01:00")) ∧
      ms_to_iso (.int 0) = "1970-01-01T00:00:00" ∧
      ("1970-01-01T00:01:00" : String) ≠ "1970-01-01T00:00:00" := by
  refine ⟨by decide, by decide, by decide⟩

/-- C6 (amended): the event timestamp is resolved as first-truthy-wins:
when the `fechaevento` attribute value is truthy it is the one converted;
when it is falsy (null, absent, `0`, `""`, `False`, ...) the `fecha`
attribute value is converted instead. -/
theorem C6_first_truthy_wins (u : String) (fd attrs : List (String × PyVal)) (it : Item)
    (h : attrsOf fd = .dict attrs)
    (hit : normalize_feature u (.dict fd) = .ok it) :
    (truthy (dgetD attrs "fechaevento" PyVal.none) = true →
      dget it "fechaEvento" = some (.str (ms_to_iso (dgetD attrs "fechaevento" PyVal.none)))) ∧
    (truthy (dgetD attrs "fechaevento" PyVal.none) = false →
      dget it "fechaEvento" = some (.str (ms_to_iso (dgetD attrs "fecha" PyVal.none)))) := by
  simp only [normalize_feature, h, Except.ok.injEq] at hit
  subst hit
  constructor <;> intro htv <;> simp [dget, pyOr, htv]

/-- C6 witness: with a truthy `fechaevento = 60000`, that value is the one
converted. -/
theorem C6_witness :
    truthy (dgetD [("fechaevento", PyVal.int 60000)] "fechaevento" PyVal.none) = true ∧
      dget [("id", PyVal.str "u0"), ("codigo", PyVal.str ""),
          ("fechaEvento", PyVal.str "1970-01-01T00:01:00"), ("horaLocal", PyVal.str ""),
          ("referencia", PyVal.str ""), ("magnitud", PyVal.str ""), ("intensidad", PyVal.str ""),
          ("profundidadKm", PyVal.str ""), ("profundidadCategoria", PyVal.str ""),
          ("departamento", PyVal.str ""), ("sentido", PyVal.str ""),
          ("ultimoFlag", PyVal.str "")] "fechaEvento"
        = some (.str (ms_to_iso (dgetD [("fechaevento", PyVal.int 60000)] "fechaevento" PyVal.none))) := by
  refine ⟨by decide, ?_⟩
  exact (C6_first_truthy_wins "u0" [("attributes", PyVal.dict [("fechaevento", PyVal.int 60000)])]
    [("fechaevento", PyVal.int 60000)] _ rfl (by decide)).1 (by decide)

/-- C1: when the store replacement completes without error on a prior table
state whose rows all carry the `id` key (the DynamoDB key-schema invariant:
`id` is the table's primary key), the resulting table holds only rows of
the input batch, and its set of `id` values equals the batch's set of `id`
values; in particular no prior row survives unless it was in the batch. -/
theorem C1_replace_all_snapshot (t : Table) (items : List Item) (t2 : Table)
    (hprior : ∀ r ∈ t, (dget r "id").isSome)
    (hsave : save_to_dynamo items t = some t2) :
    (∀ r ∈ t2, r ∈ items) ∧ (∀ v, v ∈ idVals t2 ↔ v ∈ idVals items) := by
  rw [save_to_dynamo, delete_phase_eq_nil hprior] at hsave
  constructor
  · intro r hr
    rcases put_phase_subset hsave r hr with hnil | hi
    · exact absurd hnil (List.not_mem_nil r)
    · exact hi
  · intro v
    simpa [idVals] using put_phase_idVals hsave v

/-- C1 witness: replacing a one-row table (id "a") with a one-item batch
(id "b") leaves exactly the batch row; "a" is no longer an id of the table
and "b" is. -/
theorem C1_witness :
    ([("id", PyVal.str "b")] ∈ [[("id", PyVal.str "b")]]) ∧
      (PyVal.str "a" ∈ idVals [[("id", PyVal.str "b")]] ↔
        PyVal.str "a" ∈ idVals [[("id", PyVal.str "b")]]) ∧
      (PyVal.str "b" ∈ idVals [[("id", PyVal.str "b")]] ↔
        PyVal.str "b" ∈ idVals [[("id", PyVal.str "b")]]) := by
  have H := C1_replace_all_snapshot [[("id", PyVal.str "a"), ("old", PyVal.int 1)]]
    [[("id", PyVal.str "b")]] [[("id", PyVal.str "b")]] (by decide) (by decide)
  exact ⟨H.1 _ (by decide), H.2 (PyVal.str "a"), H.2 (PyVal.str "b")⟩

/-- C9: for every positive limit, the feed client's single GET request
(issued once by construction of `fetch_last_sismos`) carries exactly the
query parameters `f=json`, `where=1=1`, `outFields=*`,
`orderByFields=fechaevento DESC`, `resultRecordCount=limit`,
`returnGeometry=false` and a timeout of 10 seconds; on a successful
response whose parsed body is a dict, the `features` value is returned
when the key is present, and the empty list when it is absent. -/
theorem C9_fetch_request_spec (limit : Int) (_hpos : 0 < limit)
    (http : Request → HttpOutcome) :
    fetch_request limit =
      { url := ARCGIS_URL
        params := [("f", .str "json"), ("where", .str "1=1"), ("outFields", .str "*"),
                   ("orderByFields", .str "fechaevento DESC"),
                   ("resultRecordCount", .int limit), ("returnGeometry", .str "false")]
        timeoutSecs := 10 } ∧
    (∀ d v, http (fetch_request limit) = .resp ⟨200, .ok (.dict d)⟩ →
        dget d "features" = some v → fetch_last_sismos limit http = .ok v) ∧
    (∀ d, http (fetch_request limit) = .resp ⟨200, .ok (.dict d)⟩ →
        dget d "features" = Option.none → fetch_last_sismos limit http = .ok (.list [])) := by
  refine ⟨rfl, ?_, ?_⟩
  · intro d v hresp hv
    simp [fetch_last_sismos, hresp, dgetD, hv]
  · intro d hresp hv
    simp [fetch_last_sismos, hresp, dgetD, hv]

/-- C9 witness: at limit 10, a 200 response with body
`\x7b"features": [5]\x7d` yields the features list `[5]`. -/
theorem C9_witness :
    fetch_last_sismos 10
        (fun _ => .resp ⟨200, .ok (.dict [("features", .list [.int 5])])⟩) =
      .ok (.list [.int 5]) :=
  (C9_fetch_request_spec 10 (by decide)
    (fun _ => .resp ⟨200, .ok (.dict [("features", .list [.int 5])])⟩)).2.1
    [("features", .list [.int 5])] (.list [.int 5]) rfl rfl

/-- C7: when the feed request fails (the fetch stage raises, e.g. a
timeout), the handler returns status 500 with body
`\x7b"error": str(e)\x7d` and the destination table state is exactly the
prior state: the store replacement step is never reached. -/
theorem C7_fetch_failure_preserves_table (env : Env) (e : PyErr)
    (h : fetch_last_sismos 10 env.http = .error e) :
    lambda_handler env =
      ({ statusCode := 500, body := jsonDumps (.dict [("error", .str e.msg)])
         headers := respHeaders }, env.table) := by
  simp [lambda_handler, run_pipeline, h]

/-- C7 witness: a timed-out fetch yields the 500 response and leaves the
concrete one-row table untouched. -/
theorem C7_witness :
    lambda_handler ⟨fun _ => .fail "timed out", fun _ => "u",
        [[("id", PyVal.str "a")]], Option.none⟩ =
      ({ statusCode := 500, body := jsonDumps (.dict [("error", .str "timed out")])
         headers := respHeaders }, [[("id", PyVal.str "a")]]) :=
  C7_fetch_failure_preserves_table
    ⟨fun _ => .fail "timed out", fun _ => "u", [[("id", PyVal.str "a")]], Option.none⟩
    ⟨"timed out"⟩ rfl

/-- C4: the handler's response always carries exactly the two headers
`Content-Type: application/json; charset=utf-8` and
`Access-Control-Allow-Origin: *`; when fetch, normalization and store all
complete, it is status 200 with the JSON serialization of the normalized
batch; when any stage raises (fetch, iteration over the features value,
normalization, or a store fault), it is status 500 with body
`\x7b"error": str(e)\x7d`, regardless of the error's kind. -/
theorem C4_handler_response_shape (env : Env) :
    ((lambda_handler env).1.headers = respHeaders) ∧
    (∀ feats fs items t2,
        fetch_last_sismos 10 env.http = .ok feats →
        pyIterate feats = .ok fs →
        normalize_all env.uuids 0 fs = .ok items →
        env.storeFault = Option.none →
        save_to_dynamo items env.table = some t2 →
        lambda_handler env =
          ({ statusCode := 200, body := jsonDumps (.list (items.map PyVal.dict))
             headers := respHeaders }, t2)) ∧
    (∀ e, fetch_last_sismos 10 env.http = .error e →
        lambda_handler env =
          ({ statusCode := 500, body := jsonDumps (.dict [("error", .str e.msg)])
             headers := respHeaders }, env.table)) ∧
    (∀ feats e, fetch_last_sismos 10 env.http = .ok feats →
        pyIterate feats = .error e →
        lambda_handler env =
          ({ statusCode := 500, body := jsonDumps (.dict [("error", .str e.msg)])
             headers := respHeaders }, env.table)) ∧
    (∀ feats fs e, fetch_last_sismos 10 env.http = .ok feats →
        pyIterate feats = .ok fs →
        normalize_all env.uuids 0 fs = .error e →
        lambda_handler env =
          ({ statusCode := 500, body := jsonDumps (.dict [("error", .str e.msg)])
             headers := respHeaders }, env.table)) ∧
    (∀ feats fs items e tf, fetch_last_sismos 10 env.http = .ok feats →
        pyIterate feats = .ok fs →
        normalize_all env.uuids 0 fs = .ok items →
        env.storeFault = some (e, tf) →
        lambda_handler env =
          ({ statusCode := 500, body := jsonDumps (.dict [("error", .str e.msg)])
             headers := respHeaders }, tf)) := by
  refine ⟨?_, ?_, ?_, ?_, ?_, ?_⟩
  · rw [lambda_handler]
    rcases hrun : run_pipeline env with ⟨res, t2⟩
    cases res <;> simp
  · intro feats fs items t2 h1 h2 h3 h4 h5
    simp [lambda_handler, run_pipeline, h1, h2, h3, h4, h5]
  · intro e h1
    simp [lambda_handler, run_pipeline, h1]
  · intro feats e h1 h2
    simp [lambda_handler, run_pipeline, h1, h2]
  · intro feats fs e h1 h2 h3
    simp [lambda_handler, run_pipeline, h1, h2, h3]
  · intro feats fs items e tf h1 h2 h3 h4
    simp [lambda_handler, run_pipeline, h1, h2, h3, h4]

/-- C4 witness: a failing fetch gives the 500 shape, and a successful run
over one empty feature gives the 200 shape with the serialized batch. -/
theorem C4_witness :
    lambda_handler ⟨fun _ => .fail "boom", fun _ => "u0", [], Option.none⟩ =
      ({ statusCode := 500, body := jsonDumps (.dict [("error", .str "boom")])
         headers := respHeaders }, []) ∧
    lambda_handler ⟨fun _ => .resp ⟨200, .ok (.dict [("features", .list [.dict []])])⟩,
        fun _ => "u0", [], Option.none⟩ =
      ({ statusCode := 200
         body := jsonDumps (.list ([[("id", PyVal.str "u0"), ("codigo", PyVal.str ""),
           ("fechaEvento", PyVal.str ""), ("horaLocal", PyVal.str ""),
           ("referencia", PyVal.str ""), ("magnitud", PyVal.str ""),
           ("intensidad", PyVal.str ""), ("profundidadKm", PyVal.str ""),
           ("profundidadCategoria", PyVal.str ""), ("departamento", PyVal.str ""),
           ("sentido", PyVal.str ""), ("ultimoFlag", PyVal.str "")]].map PyVal.dict))
         headers := respHeaders },
       [[("id", PyVal.str "u0"), ("codigo", PyVal.str ""),
         ("fechaEvento", PyVal.str ""), ("horaLocal", PyVal.str ""),
         ("referencia", PyVal.str ""), ("magnitud", PyVal.str ""),
         ("intensidad", PyVal.str ""), ("profundidadKm", PyVal.str ""),
         ("profundidadCategoria", PyVal.str ""), ("departamento", PyVal.str ""),
         ("sentido", PyVal.str ""), ("ultimoFlag", PyVal.str "")]]) := by
  constructor
  · exact (C4_handler_response_shape
      ⟨fun _ => .fail "boom", fun _ => "u0", [], Option.none⟩).2.2.1 ⟨"boom"⟩ rfl
  · exact (C4_handler_response_shape
      ⟨fun _ => .resp ⟨200, .ok (.dict [("features", .list [.dict []])])⟩,
        fun _ => "u0", [], Option.none⟩).2.1
      (.list [.dict []]) [.dict []]
      [[("id", PyVal.str "u0"), ("codigo", PyVal.str ""),
        ("fechaEvento", PyVal.str ""), ("horaLocal", PyVal.str ""),
        ("referencia", PyVal.str ""), ("magnitud", PyVal.str ""),
        ("intensidad", PyVal.str ""), ("profundidadKm", PyVal.str ""),
        ("profundidadCategoria", PyVal.str ""), ("departamento", PyVal.str ""),
        ("sentido", PyVal.str ""), ("ultimoFlag", PyVal.str "")]]
      [[("id", PyVal.str "u0"), ("codigo", PyVal.str ""),
        ("fechaEvento", PyVal.str ""), ("horaLocal", PyVal.str ""),
        ("referencia", PyVal.str ""), ("magnitud", PyVal.str ""),
        ("intensidad", PyVal.str ""), ("profundidadKm", PyVal.str ""),
        ("profundidadCategoria", PyVal.str ""), ("departamento", PyVal.str ""),
        ("sentido", PyVal.str ""), ("ultimoFlag", PyVal.str "")]]
      rfl rfl (by decide) rfl (by decide)

/-- C10: when the parsed upstream response is a dict with no `features`
key, the pipeline runs with the empty batch: the response is status 200
with body `"[]"`, and (store operations succeeding) the delete phase
removes every prior row that has an `id` key while every row lacking an
`id` key is skipped and survives. -/
theorem C10_empty_features_snapshot (t : Table) (d : List (String × PyVal))
    (uuids : Nat → String) (env : Env)
    (henv : env = ⟨fun _ => .resp ⟨200, .ok (.dict d)⟩, uuids, t, Option.none⟩)
    (hd : dget d "features" = Option.none) :
    (lambda_handler env).1 = { statusCode := 200, body := "[]", headers := respHeaders } ∧
    (∀ r ∈ t, (dget r "id").isSome → r ∉ (lambda_handler env).2) ∧
    (∀ r ∈ t, dget r "id" = Option.none → r ∈ (lambda_handler env).2) := by
  subst henv
  have hrun : run_pipeline ⟨fun _ => .resp ⟨200, .ok (.dict d)⟩, uuids, t, Option.none⟩ =
      (.ok [], delete_phase t t) := by
    simp [run_pipeline, fetch_last_sismos, dgetD, hd, pyIterate, normalize_all,
      save_to_dynamo, put_phase]
  have hbody : jsonDumps (.list []) = "[]" := by decide
  refine ⟨?_, ?_, ?_⟩
  · simp [lambda_handler, hrun, hbody]
  · intro r hr hid hmem
    rw [lambda_handler, hrun] at hmem
    rcases mem_delete_phase hmem with ⟨_, hall⟩
    rcases Option.isSome_iff_exists.mp hid with ⟨k, hk⟩
    exact hall r hr k hk hk
  · intro r hr hid
    rw [lambda_handler, hrun]
    exact mem_delete_phase_of_no_id hid t t hr

/-- C10 witness: on a featureless parsed body, a table with one `id` row
and one id-less row ends up holding only the id-less row, with the 200
`"[]"` response. -/
theorem C10_witness :
    (lambda_handler ⟨fun _ => .resp ⟨200, .ok (.dict [("foo", .int 1)])⟩, fun _ => "u",
        [[("id", PyVal.str "a")], [("x", PyVal.int 1)]], Option.none⟩).1 =
      { statusCode := 200, body := "[]", headers := respHeaders } ∧
    [("id", PyVal.str "a")] ∉
      (lambda_handler ⟨fun _ => .resp ⟨200, .ok (.dict [("foo", .int 1)])⟩, fun _ => "u",
        [[("id", PyVal.str "a")], [("x", PyVal.int 1)]], Option.none⟩).2 ∧
    [("x", PyVal.int 1)] ∈
      (lambda_handler ⟨fun _ => .resp ⟨200, .ok (.dict [("foo", .int 1)])⟩, fun _ => "u",
        [[("id", PyVal.str "a")], [("x", PyVal.int 1)]], Option.none⟩).2 := by
  have H := C10_empty_features_snapshot
    [[("id", PyVal.str "a")], [("x", PyVal.int 1)]] [("foo", .int 1)] (fun _ => "u") _ rfl rfl
  exact ⟨H.1, H.2.1 _ (by decide) (by decide), H.2.2 _ (by decide) (by decide)⟩

end IGP
